import Mathlib

/-!
Shallow embedding of `src/input/drivers/emulatorjs_input.c` (the EmulatorJS
RetroArch browser input driver) and proofs about it.

The driver accumulates asynchronous browser events (mouse, wheel, touch,
keyboard) and an externally injected virtual gamepad table into state that a
host frontend reads through `poll` / `state` calls.  Pure functions below are
translated line by line from the C source; host services that live outside
this source unit (the key-map registry, the analog-id conversion macro, the
viewport translation service) are abstracted as function parameters.
-/

/- ── Host / API constants (libretro public API and emscripten html5 event
      type numbers, as used by the source file) ────────────────────────── -/

def EMSCRIPTEN_EVENT_KEYDOWN : Nat := 2
def EMSCRIPTEN_EVENT_KEYUP : Nat := 3
def EMSCRIPTEN_EVENT_MOUSEDOWN : Nat := 5
def EMSCRIPTEN_EVENT_MOUSEUP : Nat := 6
def EMSCRIPTEN_EVENT_MOUSEMOVE : Nat := 8
def EMSCRIPTEN_EVENT_TOUCHSTART : Nat := 22
def EMSCRIPTEN_EVENT_TOUCHEND : Nat := 23
def EMSCRIPTEN_EVENT_TOUCHMOVE : Nat := 24
def EMSCRIPTEN_EVENT_TOUCHCANCEL : Nat := 25

def RETRO_DEVICE_JOYPAD : Nat := 1
def RETRO_DEVICE_MOUSE : Nat := 2
def RETRO_DEVICE_KEYBOARD : Nat := 3
def RETRO_DEVICE_ANALOG : Nat := 5
def RETRO_DEVICE_POINTER : Nat := 6
/-- RARCH_DEVICE_MOUSE_SCREEN = RETRO_DEVICE_MOUSE | 0x10000. -/
def RARCH_DEVICE_MOUSE_SCREEN : Nat := 65538
/-- RARCH_DEVICE_POINTER_SCREEN = RETRO_DEVICE_POINTER | 0x10000. -/
def RARCH_DEVICE_POINTER_SCREEN : Nat := 65542

def RETRO_DEVICE_ID_JOYPAD_MASK : Nat := 256

def RETRO_DEVICE_ID_MOUSE_X : Nat := 0
def RETRO_DEVICE_ID_MOUSE_Y : Nat := 1
def RETRO_DEVICE_ID_MOUSE_LEFT : Nat := 2
def RETRO_DEVICE_ID_MOUSE_RIGHT : Nat := 3
def RETRO_DEVICE_ID_MOUSE_WHEELUP : Nat := 4
def RETRO_DEVICE_ID_MOUSE_WHEELDOWN : Nat := 5
def RETRO_DEVICE_ID_MOUSE_MIDDLE : Nat := 6
def RETRO_DEVICE_ID_MOUSE_HORIZ_WHEELUP : Nat := 7
def RETRO_DEVICE_ID_MOUSE_HORIZ_WHEELDOWN : Nat := 8
def RETRO_DEVICE_ID_MOUSE_BUTTON_4 : Nat := 9
def RETRO_DEVICE_ID_MOUSE_BUTTON_5 : Nat := 10

def RETRO_DEVICE_ID_POINTER_X : Nat := 0
def RETRO_DEVICE_ID_POINTER_Y : Nat := 1
def RETRO_DEVICE_ID_POINTER_PRESSED : Nat := 2
def RETRO_DEVICE_ID_LIGHTGUN_IS_OFFSCREEN : Nat := 15

def RETROK_UNKNOWN : Nat := 0
def RETROK_LAST : Nat := 323

/-- Modelled from the spec: host constant `RARCH_FIRST_CUSTOM_BIND`, the
number of digital joypad buttons enumerable in the MASK bitfield (spec §4.5:
rows 0..15 are digital joypad buttons, so the constant is 16).  The defining
header is not part of `src/`. -/
def RARCH_FIRST_CUSTOM_BIND : Nat := 16

/-- Truncating conversion of a mathematical integer to the value range of a
C `int16_t` (two's-complement wrap-around). -/
def toInt16 (v : Int) : Int := (v + 32768) % 65536 - 32768

/-- The unsigned 16-bit pattern carried by an `int16_t` value. -/
def uint16 (v : Int) : Int := v % 65536

/- ── CRC-32 ──────────────────────────────────────────────────────────── -/

/-- The reflected CRC-32 polynomial 0xEDB88320. -/
def crc32poly : Nat := 0xEDB88320

/-- One bit step of the reflected CRC-32: shift right, conditionally XOR the
polynomial. -/
def crc32bitStep (c : Nat) : Nat :=
  if c % 2 = 1 then (c / 2) ^^^ crc32poly else c / 2

/-- One byte step: XOR the byte into the low bits, then eight bit steps. -/
def crc32byteStep (c b : Nat) : Nat := crc32bitStep^[8] (c ^^^ b)

/-- Modelled from the spec: `encoding_crc32` from libretro-common
(`encodings/crc32.h`), which is not part of `src/`.  Spec §4.1: a 32-bit CRC
of the UTF-8 bytes of the string; this is the standard (zlib-compatible)
CRC-32: seed XOR 0xFFFFFFFF, byte steps, final XOR 0xFFFFFFFF. -/
def encoding_crc32 (seed : Nat) (bytes : List Nat) : Nat :=
  (bytes.foldl crc32byteStep (seed ^^^ 0xFFFFFFFF)) ^^^ 0xFFFFFFFF

/-- UTF-8 bytes of a string; all key-code strings in this driver are ASCII,
for which the UTF-8 bytes are the character code points. -/
def strBytes (s : String) : List Nat := s.toList.map Char.toNat

/- ── Driver state (struct rwebinput_input) ───────────────────────────── -/

/-- struct rwebinput_touch. -/
structure RwebinputTouch where
  touch_id : Int
  last_canvasX : Int
  last_canvasY : Int
  down : Bool
  last_touchdown_id : Int
  last_touchdown_location : Int
  clicked_yet : Bool
deriving Repr, DecidableEq

/-- struct rwebinput_mouse_states.  The scroll counters are C doubles; the
claims under verification only ever assign literal zero to the pending
counters and compare the current counters to zero, so they are modelled as
exact rationals. -/
structure RwebinputMouseState where
  pending_scroll_x : Rat
  pending_scroll_y : Rat
  scroll_x : Rat
  scroll_y : Rat
  x : Int
  y : Int
  pending_delta_x : Int
  pending_delta_y : Int
  delta_x : Int
  delta_y : Int
  buttons : Nat
deriving Repr, DecidableEq

/-- struct rwebinput_keyboard_event: the emscripten event type number plus
the `code` string captured from the DOM event. -/
structure RwebinputKeyboardEvent where
  type : Nat
  code : String
deriving Repr, DecidableEq

/-- struct rwebinput_keyboard_event_queue: a backing buffer of records and a
count of the queued ones (the `max_size` capacity field takes no part in the
code under verification). -/
structure RwebinputKeyboardQueue where
  events : List RwebinputKeyboardEvent
  count : Nat
deriving Repr, DecidableEq

/-- struct rwebinput_input.  `keys` is the bool[RETROK_LAST] key-down table,
modelled as a total function only ever written at indices below RETROK_LAST. -/
structure RwebinputInput where
  touch : RwebinputTouch
  mouse : RwebinputMouseState
  keyboard : RwebinputKeyboardQueue
  keys : Nat → Bool

/-- The zero driver state produced by `calloc` in rwebinput_input_init. -/
def rwebinput_init : RwebinputInput :=
  { touch := ⟨0, 0, 0, false, 0, 0, false⟩
  , mouse := ⟨0, 0, 0, 0, 0, 0, 0, 0, 0, 0, 0⟩
  , keyboard := ⟨[], 0⟩
  , keys := fun _ => false }

/- ── Mouse / wheel callbacks ─────────────────────────────────────────── -/

/-- The fields of EmscriptenMouseEvent read by the driver. -/
structure EmscriptenMouseEvent where
  targetX : Int
  targetY : Int
  movementX : Int
  movementY : Int
  button : Nat
deriving Repr, DecidableEq

/-- rwebinput_mouse_cb (WEB_SCALING disabled): update the absolute position,
accumulate the motion delta into the pending counters, and set/clear the
button bit on mousedown/mouseup.  `mask` is the C `uint8_t mask = 1 <<
button`. -/
def rwebinput_mouse_cb (event_type : Nat) (e : EmscriptenMouseEvent)
    (st : RwebinputInput) : RwebinputInput :=
  let mask : Nat := 2 ^ e.button % 256
  let m := { st.mouse with
             x := e.targetX
             y := e.targetY
             pending_delta_x := st.mouse.pending_delta_x + e.movementX
             pending_delta_y := st.mouse.pending_delta_y + e.movementY }
  let m :=
    if event_type = EMSCRIPTEN_EVENT_MOUSEDOWN then
      { m with buttons := m.buttons ||| mask }
    else if event_type = EMSCRIPTEN_EVENT_MOUSEUP then
      { m with buttons := m.buttons &&& (255 ^^^ mask) }
    else m
  { st with mouse := m }

/-- rwebinput_wheel_cb (WEB_SCALING disabled): accumulate the wheel deltas
into the pending scroll counters. -/
def rwebinput_wheel_cb (deltaX deltaY : Rat) (st : RwebinputInput) :
    RwebinputInput :=
  { st with mouse := { st.mouse with
      pending_scroll_x := st.mouse.pending_scroll_x + deltaX
      pending_scroll_y := st.mouse.pending_scroll_y + deltaY } }

/- ── Keyboard processing and poll ────────────────────────────────────── -/

/-- rwebinput_process_keyboard_events, as its effect on the key-down table:
CRC the `code` string (strnlen bounds it to the 32-byte field), translate it
through the host key-map service `lut`, and when the result is in range and
not RETROK_UNKNOWN record keydown/keyup at that index. -/
def rwebinput_process_keyboard_events (lut : Nat → Nat) (keys : Nat → Bool)
    (e : RwebinputKeyboardEvent) : Nat → Bool :=
  let keydown := e.type = EMSCRIPTEN_EVENT_KEYDOWN
  let keycode := encoding_crc32 0 ((strBytes e.code).take 32)
  let translated := lut keycode
  if translated < RETROK_LAST ∧ translated ≠ RETROK_UNKNOWN then
    fun k => if k = translated then decide keydown else keys k
  else keys

/-- rwebinput_input_poll: drain the first `count` queued keyboard records in
order, reset the count, snapshot the pending mouse delta and pending scroll
into the current ones and zero the pending ones.  `lut` is the host key-map
service used during the drain. -/
def rwebinput_input_poll (lut : Nat → Nat) (st : RwebinputInput) :
    RwebinputInput :=
  { st with
    keys := (st.keyboard.events.take st.keyboard.count).foldl
              (rwebinput_process_keyboard_events lut) st.keys
    keyboard := { st.keyboard with count := 0 }
    mouse := { st.mouse with
               delta_x := st.mouse.pending_delta_x
               delta_y := st.mouse.pending_delta_y
               pending_delta_x := 0
               pending_delta_y := 0
               scroll_x := st.mouse.pending_scroll_x
               scroll_y := st.mouse.pending_scroll_y
               pending_scroll_x := 0
               pending_scroll_y := 0 } }

/- ── Mouse state query ───────────────────────────────────────────────── -/

/-- rwebinput_mouse_state: dispatch on the mouse sub-id; X/Y return the
absolute position for the screen variant and the latched delta otherwise,
button ids return the bit, wheel ids compare the latched scroll to zero. -/
def rwebinput_mouse_state (mouse : RwebinputMouseState) (id : Nat)
    (screen : Bool) : Int :=
  if id = RETRO_DEVICE_ID_MOUSE_X then
    toInt16 (if screen then mouse.x else mouse.delta_x)
  else if id = RETRO_DEVICE_ID_MOUSE_Y then
    toInt16 (if screen then mouse.y else mouse.delta_y)
  else if id = RETRO_DEVICE_ID_MOUSE_LEFT then
    if mouse.buttons &&& 1 ≠ 0 then 1 else 0
  else if id = RETRO_DEVICE_ID_MOUSE_RIGHT then
    if mouse.buttons &&& 4 ≠ 0 then 1 else 0
  else if id = RETRO_DEVICE_ID_MOUSE_MIDDLE then
    if mouse.buttons &&& 2 ≠ 0 then 1 else 0
  else if id = RETRO_DEVICE_ID_MOUSE_BUTTON_4 then
    if mouse.buttons &&& 8 ≠ 0 then 1 else 0
  else if id = RETRO_DEVICE_ID_MOUSE_BUTTON_5 then
    if mouse.buttons &&& 16 ≠ 0 then 1 else 0
  else if id = RETRO_DEVICE_ID_MOUSE_WHEELUP then
    if mouse.scroll_y < 0 then 1 else 0
  else if id = RETRO_DEVICE_ID_MOUSE_WHEELDOWN then
    if mouse.scroll_y > 0 then 1 else 0
  else if id = RETRO_DEVICE_ID_MOUSE_HORIZ_WHEELUP then
    if mouse.scroll_x < 0 then 1 else 0
  else if id = RETRO_DEVICE_ID_MOUSE_HORIZ_WHEELDOWN then
    if mouse.scroll_x > 0 then 1 else 0
  else 0

/- ── Touch state machine ─────────────────────────────────────────────── -/

/-- The fields of EmscriptenTouchPoint read by the driver. -/
structure TouchPoint where
  identifier : Int
  canvasX : Int
  canvasY : Int
  isChanged : Bool
deriving Repr, DecidableEq

/-- The selection loop at the top of rwebinput_touch_cb: the last touch point
flagged as changed wins; none means the event is dropped. -/
def selectChanged (touches : List TouchPoint) : Option TouchPoint :=
  touches.foldl (fun acc t => if t.isChanged then some t else acc) none

/-- The body of rwebinput_touch_cb after the changed-point selection,
translated statement by statement: the sequential `let` rebindings mirror
the C code's in-place mutations, in the same order. -/
def rwebinput_touch_body (event_type : Nat) (ct : TouchPoint)
    (st : RwebinputInput) : RwebinputInput :=
    let th := st.touch
    let th :=
      if event_type = EMSCRIPTEN_EVENT_TOUCHSTART ∧
         th.last_touchdown_id ≠ ct.identifier then
        { th with clicked_yet := false
                  last_touchdown_id := ct.identifier
                  last_touchdown_location := ct.canvasX + ct.canvasY }
      else th
    let mouse := st.mouse
    let mouse :=
      if event_type = EMSCRIPTEN_EVENT_TOUCHSTART ∧ th.clicked_yet then
        { mouse with buttons := mouse.buttons ||| 1 }
      else mouse
    let th :=
      if event_type = EMSCRIPTEN_EVENT_TOUCHMOVE ∧
         th.last_touchdown_id = ct.identifier then
        let u := th.last_touchdown_location - (ct.canvasX + ct.canvasY)
        if (if u < 0 then -u else u) > 25 then
          { th with last_touchdown_id := -1 }
        else th
      else th
    if event_type = EMSCRIPTEN_EVENT_TOUCHCANCEL ∨
       event_type = EMSCRIPTEN_EVENT_TOUCHEND then
      let th :=
        if ct.identifier = th.touch_id then { th with down := false } else th
      if th.last_touchdown_id = ct.identifier ∧ th.clicked_yet = false then
        { st with touch := { th with clicked_yet := true }, mouse := mouse }
      else if th.clicked_yet then
        { st with
          touch := { th with clicked_yet := false, last_touchdown_id := -1 }
          mouse := { mouse with buttons := mouse.buttons &&& 254 } }
      else
        { st with touch := th, mouse := mouse }
    else if th.down ∧ ct.identifier ≠ th.touch_id then
      { st with touch := th, mouse := mouse }
    else if event_type = EMSCRIPTEN_EVENT_TOUCHSTART then
      { st with
        touch := { th with down := true
                           touch_id := ct.identifier
                           last_canvasX := ct.canvasX
                           last_canvasY := ct.canvasY }
        mouse := mouse }
    else if event_type = EMSCRIPTEN_EVENT_TOUCHMOVE then
      let diffX := ct.canvasX - th.last_canvasX
      let diffY := ct.canvasY - th.last_canvasY
      { st with
        touch := { th with last_canvasX := ct.canvasX
                           last_canvasY := ct.canvasY }
        mouse := { mouse with
                   x := ct.canvasX
                   y := ct.canvasY
                   pending_delta_x := mouse.pending_delta_x + diffX
                   pending_delta_y := mouse.pending_delta_y + diffY } }
    else
      { st with touch := th, mouse := mouse }

/-- rwebinput_touch_cb: select the last changed touch point (none: event
dropped), then run the body. -/
def rwebinput_touch_cb (event_type : Nat) (touches : List TouchPoint)
    (st : RwebinputInput) : RwebinputInput :=
  match selectChanged touches with
  | none => st
  | some ct => rwebinput_touch_body event_type ct st

/- ── Virtual gamepad table ───────────────────────────────────────────── -/

/-- struct rwebinput_code_to_key: one row of the `stuff` table. -/
structure CodeToKey where
  id : Int
  down_1 : Int
  down_2 : Int
  down_3 : Int
  down_4 : Int
deriving Repr, DecidableEq

/-- The user-column write of simulate_input's matched row (the if/else-if
chain on `user`; a user outside 0..3 writes nothing). -/
def writeUser (user down : Int) (e : CodeToKey) : CodeToKey :=
  if user = 0 then { e with down_1 := down }
  else if user = 1 then { e with down_2 := down }
  else if user = 2 then { e with down_3 := down }
  else if user = 3 then { e with down_4 := down }
  else e

/-- simulate_input: scan the table for the row whose id matches `key`, write
the `user` column of that row, and break. -/
def simulate_input (user key down : Int) : List CodeToKey → List CodeToKey
  | [] => []
  | e :: rest =>
    if e.id = key then writeUser user down e :: rest
    else e :: simulate_input user key down rest

/-- The scan loop of is_pressed_hehe: on the matching row return the `user`
column; a user outside 0..3 falls through and keeps scanning. -/
def is_pressed_scan (user id : Int) : List CodeToKey → Int
  | [] => 0
  | e :: rest =>
    if e.id = id then
      if user = 0 then e.down_1
      else if user = 1 then e.down_2
      else if user = 2 then e.down_3
      else if user = 3 then e.down_4
      else is_pressed_scan user id rest
    else is_pressed_scan user id rest

/-- is_pressed_hehe: ids 24 and above are reserved and read as 0; otherwise
scan the table. -/
def is_pressed_hehe (stuff : List CodeToKey) (user id : Int) : Int :=
  if 24 ≤ id then 0 else is_pressed_scan user id stuff

/-- Row `i` of a `stuff` table whose four user columns hold the values
`d1 i`, `d2 i`, `d3 i`, `d4 i`. -/
def stuffEntry (d1 d2 d3 d4 : Nat → Int) (i : Nat) : CodeToKey :=
  ⟨i, d1 i, d2 i, d3 i, d4 i⟩

/-- The shape shared by every state of the `stuff` table: 29 rows whose id
field equals the row index (the static initializer fixes the ids and only the
down columns are ever written). -/
def stuffTable (d1 d2 d3 d4 : Nat → Int) : List CodeToKey :=
  (List.range 29).map (stuffEntry d1 d2 d3 d4)

/-- The static initializer of `stuff`: ids 0..28, all down columns zero. -/
def stuff_init : List CodeToKey :=
  stuffTable (fun _ => 0) (fun _ => 0) (fun _ => 0) (fun _ => 0)

/- ── Polled state query ──────────────────────────────────────────────── -/

/-- The JOYPAD/MASK loop of rwebinput_input_state: the 16-bit pattern built
by OR-ing bit i for every pressed digital button i. -/
def rwebinput_joypad_mask (stuff : List CodeToKey) (port : Nat) : Nat :=
  (List.range RARCH_FIRST_CUSTOM_BIND).foldl
    (fun (r i : Nat) =>
      if is_pressed_hehe stuff (port : Int) (i : Int) ≠ 0 then
        r ||| (1 <<< i)
      else r)
    0

/-- rwebinput_input_state.  Host services that live outside this source unit
are passed in: `bindListEnd` is the host constant RARCH_BIND_LIST_END, `conv`
is input_conv_analog_id_to_bind_id as a map from (index, id) to the pair
(id_minus, id_plus), and `vtrans` is video_driver_translate_coord_viewport_wrap
as a map from the absolute mouse position to (res_x, res_y, res_screen_x,
res_screen_y), none meaning failure. -/
def rwebinput_input_state (bindListEnd : Nat) (conv : Nat → Nat → Nat × Nat)
    (vtrans : Int → Int → Option (Int × Int × Int × Int))
    (stuff : List CodeToKey) (st : RwebinputInput)
    (port device idx id : Nat) : Int :=
  if device = RETRO_DEVICE_JOYPAD then
    if id = RETRO_DEVICE_ID_JOYPAD_MASK then
      toInt16 (rwebinput_joypad_mask stuff port)
    else if id < bindListEnd ∧ is_pressed_hehe stuff port id ≠ 0 then 1
    else 0
  else if device = RETRO_DEVICE_ANALOG then
    let p := conv idx id
    let rv1 := is_pressed_hehe stuff port p.2
    let ret1 : Int := if rv1 ≠ 0 then toInt16 rv1 else 0
    let rv2 := is_pressed_hehe stuff port p.1
    if rv2 ≠ 0 then toInt16 (ret1 - rv2) else ret1
  else if device = RETRO_DEVICE_KEYBOARD then
    if id < RETROK_LAST ∧ st.keys id = true then 1 else 0
  else if device = RETRO_DEVICE_MOUSE ∨ device = RARCH_DEVICE_MOUSE_SCREEN then
    rwebinput_mouse_state st.mouse id (device = RARCH_DEVICE_MOUSE_SCREEN)
  else if device = RETRO_DEVICE_POINTER ∨
          device = RARCH_DEVICE_POINTER_SCREEN then
    if idx = 0 then
      match vtrans st.mouse.x st.mouse.y with
      | none => 0
      | some (rx, ry, rsx, rsy) =>
        let screen := device = RARCH_DEVICE_POINTER_SCREEN
        let resx := if screen then rsx else rx
        let resy := if screen then rsy else ry
        let inside := -32700 ≤ resx ∧ resx ≤ 32700 ∧
                      -32700 ≤ resy ∧ resy ≤ 32700
        if id = RETRO_DEVICE_ID_POINTER_X then if inside then resx else 0
        else if id = RETRO_DEVICE_ID_POINTER_Y then if inside then resy else 0
        else if id = RETRO_DEVICE_ID_POINTER_PRESSED then
          if st.mouse.buttons &&& 1 ≠ 0 then 1 else 0
        else if id = RETRO_DEVICE_ID_LIGHTGUN_IS_OFFSCREEN then
          if inside then 0 else 1
        else 0
    else 0
  else 0

/- ── Key-to-code table and LUT construction ──────────────────────────── -/

/-- rwebinput_key_to_code_map: the static table pairing each browser
KeyboardEvent.code string with its retro key id (numeric values of the
`enum retro_key` constants named in the source). -/
def rwebinput_key_to_code_map : List (String × Nat) :=
  [ ("KeyA", 97)
  , ("KeyB", 98)
  , ("KeyC", 99)
  , ("KeyD", 100)
  , ("KeyE", 101)
  , ("KeyF", 102)
  , ("KeyG", 103)
  , ("KeyH", 104)
  , ("KeyI", 105)
  , ("KeyJ", 106)
  , ("KeyK", 107)
  , ("KeyL", 108)
  , ("KeyM", 109)
  , ("KeyN", 110)
  , ("KeyO", 111)
  , ("KeyP", 112)
  , ("KeyQ", 113)
  , ("KeyR", 114)
  , ("KeyS", 115)
  , ("KeyT", 116)
  , ("KeyU", 117)
  , ("KeyV", 118)
  , ("KeyW", 119)
  , ("KeyX", 120)
  , ("KeyY", 121)
  , ("KeyZ", 122)
  , ("ArrowLeft", 276)
  , ("ArrowRight", 275)
  , ("ArrowUp", 273)
  , ("ArrowDown", 274)
  , ("Enter", 13)
  , ("NumpadEnter", 271)
  , ("Tab", 9)
  , ("Insert", 277)
  , ("Delete", 127)
  , ("End", 279)
  , ("Home", 278)
  , ("ShiftRight", 303)
  , ("ShiftLeft", 304)
  , ("ControlLeft", 306)
  , ("AltLeft", 308)
  , ("Space", 32)
  , ("Escape", 27)
  , ("NumpadAdd", 270)
  , ("NumpadSubtract", 269)
  , ("F1", 282)
  , ("F2", 283)
  , ("F3", 284)
  , ("F4", 285)
  , ("F5", 286)
  , ("F6", 287)
  , ("F7", 288)
  , ("F8", 289)
  , ("F9", 290)
  , ("F10", 291)
  , ("F11", 292)
  , ("F12", 293)
  , ("Digit0", 48)
  , ("Digit1", 49)
  , ("Digit2", 50)
  , ("Digit3", 51)
  , ("Digit4", 52)
  , ("Digit5", 53)
  , ("Digit6", 54)
  , ("Digit7", 55)
  , ("Digit8", 56)
  , ("Digit9", 57)
  , ("PageUp", 280)
  , ("PageDown", 281)
  , ("Numpad0", 256)
  , ("Numpad1", 257)
  , ("Numpad2", 258)
  , ("Numpad3", 259)
  , ("Numpad4", 260)
  , ("Numpad5", 261)
  , ("Numpad6", 262)
  , ("Numpad7", 263)
  , ("Numpad8", 264)
  , ("Numpad9", 265)
  , ("Period", 46)
  , ("CapsLock", 301)
  , ("NumLock", 300)
  , ("Backspace", 8)
  , ("NumpadMultiply", 268)
  , ("NumpadDivide", 267)
  , ("PrintScreen", 316)
  , ("ScrollLock", 302)
  , ("Backquote", 96)
  , ("Pause", 19)
  , ("Quote", 39)
  , ("Comma", 44)
  , ("Minus", 45)
  , ("Slash", 47)
  , ("Semicolon", 59)
  , ("Equal", 61)
  , ("BracketLeft", 91)
  , ("Backslash", 92)
  , ("BracketRight", 93)
  , ("NumpadDecimal", 266)
  , ("NumpadEqual", 272)
  , ("ControlRight", 305)
  , ("AltRight", 307)
  , ("F13", 294)
  , ("F14", 295)
  , ("F15", 296)
  , ("MetaRight", 309)
  , ("MetaLeft", 310)
  , ("Help", 315)
  , ("ContextMenu", 319)
  , ("Power", 320) ]

def rwebinputCrcLiterals : List Nat :=
  [ 3698047570
  , 1164110824
  , 845536126
  , 2885766877
  , 3674635851
  , 1108291569
  , 889724775
  , 2780234486
  , 3534762592
  , 1270440922
  , 1019106124
  , 2732246767
  , 3588093561
  , 1289004995
  , 1003722581
  , 3067845280
  , 3252464182
  , 1490418572
  , 802343706
  , 2981519033
  , 3333516847
  , 1605910421
  , 683609859
  , 3087012498
  , 3473351172
  , 1443787710
  , 4079174175
  , 2049103150
  , 534445947
  , 2512074060
  , 2024927082
  , 4270991568
  , 1269695980
  , 3261111235
  , 1035893169
  , 951154001
  , 3521422318
  , 1380603412
  , 2568545831
  , 2650547496
  , 4150640599
  , 3904106046
  , 574928312
  , 3752501655
  , 909849444
  , 3055876678
  , 791522300
  , 1479187306
  , 3327004361
  , 2974367327
  , 675311589
  , 1598513011
  , 3489153762
  , 3103748724
  , 1808932734
  , 483733480
  , 2245819986
  , 1028935598
  , 1246986040
  , 3545902722
  , 2757565972
  , 976849847
  , 1295956769
  , 3560434331
  , 2737887757
  , 865060764
  , 1149826826
  , 1715137013
  , 3295628344
  , 3061277008
  , 3245363654
  , 1484324988
  , 796799210
  , 2971313481
  , 3323827679
  , 1595196517
  , 672396531
  , 3098339682
  , 3484146164
  , 3256097784
  , 1549279684
  , 3052148216
  , 1024524492
  , 114624678
  , 2936058155
  , 2770439558
  , 1656880380
  , 2131888642
  , 375111145
  , 2863719664
  , 282930822
  , 4183988339
  , 3322898677
  , 1144149966
  , 4016716531
  , 614998379
  , 330139143
  , 765324136
  , 2389318925
  , 1766456649
  , 3270618950
  , 4019837265
  , 4074458820
  , 1824512871
  , 465103857
  , 964287467
  , 3250908535
  , 2830496658
  , 1990505715
  , 1783312036 ]

/-- The CRCs of the table's code strings, in table order. -/
def rwebinputCrcs : List Nat :=
  rwebinput_key_to_code_map.map (fun e => encoding_crc32 0 (strBytes e.1))

/-- The loop of rwebinput_generate_lut: for each entry compute the CRC of
its code string, fail (modelling the retro_assert) if any previously built
slot already carries that CRC, otherwise append the slot (crc, rk). -/
def rwebinput_lut_fold (acc : Option (List (Nat × Nat)))
    (es : List (String × Nat)) : Option (List (Nat × Nat)) :=
  es.foldl
    (fun acc e =>
      match acc with
      | none => none
      | some l =>
        let crc := encoding_crc32 0 (strBytes e.1)
        if l.any (fun p => p.1 = crc) then none
        else some (l ++ [(crc, e.2)]))
    acc

/-- rwebinput_generate_lut: build the parallel (sym, rk) table slot by slot
with the collision assertion, then write the terminating (0, UNKNOWN) slot.
`none` models a fired assertion. -/
def rwebinput_generate_lut : Option (List (Nat × Nat)) :=
  match rwebinput_lut_fold (some []) rwebinput_key_to_code_map with
  | none => none
  | some l => some (l ++ [(0, RETROK_UNKNOWN)])

/- ── Spec-side definitions (for refinement-style comparisons) ────────── -/

/-- Spec §4.4 and claim C3, written from the spec's words: the net effect of
applying drained keyboard records in FIFO order — a record whose code string
hashes and translates to an id in range and not UNKNOWN sets the table slot
to true for keydown and false otherwise; other records leave the table
unchanged. -/
def keyTableNetEffect (lut : Nat → Nat) (records : List RwebinputKeyboardEvent)
    (table : Nat → Bool) : Nat → Bool :=
  records.foldl
    (fun t r =>
      let id := lut (encoding_crc32 0 ((strBytes r.code).take 32))
      if id < RETROK_LAST ∧ id ≠ RETROK_UNKNOWN then
        fun k => if k = id then decide (r.type = EMSCRIPTEN_EVENT_KEYDOWN)
                 else t k
      else t)
    table

/-- Read the `user` column of a row (0 for a user outside 0..3). -/
def colGet (user : Int) (e : CodeToKey) : Int :=
  if user = 0 then e.down_1
  else if user = 1 then e.down_2
  else if user = 2 then e.down_3
  else if user = 3 then e.down_4
  else 0

/-- The stored down flag of table row `j`, column `user`. -/
def cellAt (stuff : List CodeToKey) (user : Int) (j : Nat) : Int :=
  colGet user (stuff.getD j ⟨0, 0, 0, 0, 0⟩)

/-- The row function after simulate_input's first-match write: row `key`
(there is exactly one, since row ids are the indices) has its `user` column
set to `down`, every other row is unchanged. -/
def entWrite (ent : Nat → CodeToKey) (user down key : Int) : Nat → CodeToKey :=
  fun i => if (i : Int) = key then writeUser user down (ent i) else ent i

/-- Mouse double-buffer scenario (spec §8 scenario 2): two mousemove events
with movement_x = 3 then 4 on the fresh driver state, before any poll. -/
def c1_s2 : RwebinputInput :=
  rwebinput_mouse_cb EMSCRIPTEN_EVENT_MOUSEMOVE ⟨20, 20, 4, 0, 0⟩
    (rwebinput_mouse_cb EMSCRIPTEN_EVENT_MOUSEMOVE ⟨10, 10, 3, 0, 0⟩
      rwebinput_init)

/-- Then one poll (with host key-map service `lut`). -/
def c1_s3 (lut : Nat → Nat) : RwebinputInput := rwebinput_input_poll lut c1_s2

/-- Then a second poll. -/
def c1_s4 (lut : Nat → Nat) : RwebinputInput :=
  rwebinput_input_poll lut (c1_s3 lut)

/-- Tap-drag scenario (spec §8 scenario 4): touchstart of finger 1 at
(100, 100) on the fresh driver state. -/
def c8_s1 : RwebinputInput :=
  rwebinput_touch_cb EMSCRIPTEN_EVENT_TOUCHSTART [⟨1, 100, 100, true⟩]
    rwebinput_init

/-- Then touchmove of the same finger to (200, 200): the L1 position
fingerprint moves by 200 > 25. -/
def c8_s2 : RwebinputInput :=
  rwebinput_touch_cb EMSCRIPTEN_EVENT_TOUCHMOVE [⟨1, 200, 200, true⟩] c8_s1

/-- Then touchend of the same finger. -/
def c8_s3 : RwebinputInput :=
  rwebinput_touch_cb EMSCRIPTEN_EVENT_TOUCHEND [⟨1, 200, 200, true⟩] c8_s2

/-- A driver state tracking finger 1 (down, touch_id 1, last position
(100, 100), tap sequence armed on finger 1 with location fingerprint 200):
the state reached from a fresh driver by a touchstart of finger 1 at
(100, 100). -/
def c9_state : RwebinputInput :=
  { rwebinput_init with touch := ⟨1, 100, 100, true, 1, 200, false⟩ }

/- ── Helper lemmas: gamepad table scans ──────────────────────────────── -/

lemma writeUser_id (user down : Int) (e : CodeToKey) :
    (writeUser user down e).id = e.id := by
  unfold writeUser; split_ifs <;> rfl

lemma colGet_writeUser_same (user down : Int) (e : CodeToKey)
    (h0 : 0 ≤ user) (h4 : user < 4) :
    colGet user (writeUser user down e) = down := by
  interval_cases user <;> simp [colGet, writeUser]

lemma colGet_writeUser_other (u user down : Int) (e : CodeToKey)
    (h : u ≠ user) :
    colGet u (writeUser user down e) = colGet u e := by
  unfold colGet writeUser
  split_ifs <;> simp_all

lemma colGet_of_bad_user (u : Int) (e : CodeToKey)
    (h : u < 0 ∨ 3 < u) : colGet u e = 0 := by
  unfold colGet
  split_ifs <;> omega

lemma scan_nomatch (user id : Int) :
    ∀ (l : List CodeToKey), (∀ e ∈ l, e.id ≠ id) →
      is_pressed_scan user id l = 0 := by
  intro l
  induction l with
  | nil => intro _; rfl
  | cons e rest ih =>
    intro h
    simp only [is_pressed_scan]
    rw [if_neg (h e (by simp))]
    exact ih (fun x hx => h x (by simp [hx]))

lemma is_pressed_scan_range' (user : Int) (ent : Nat → CodeToKey)
    (hent : ∀ i, (ent i).id = (i : Int)) :
    ∀ (n s j : Nat), s ≤ j → j < s + n →
      is_pressed_scan user (j : Int) ((List.range' s n).map ent) =
        colGet user (ent j) := by
  intro n
  induction n with
  | zero => intro s j h1 h2; omega
  | succ n ih =>
    intro s j h1 h2
    rw [List.range'_succ, List.map_cons]
    by_cases hj : j = s
    · subst hj
      simp only [is_pressed_scan]
      rw [if_pos (by rw [hent])]
      unfold colGet
      split_ifs <;> try rfl
      apply scan_nomatch
      intro x hx
      obtain ⟨i, hi, rfl⟩ := List.mem_map.mp hx
      rw [hent]
      obtain ⟨k, hk, rfl⟩ := List.mem_range'.mp hi
      omega
    · simp only [is_pressed_scan]
      rw [if_neg (by rw [hent]; omega)]
      exact ih (s + 1) j (by omega) (by omega)

lemma simulate_input_range' (user down : Int) (ent : Nat → CodeToKey)
    (hent : ∀ i, (ent i).id = (i : Int)) :
    ∀ (n s : Nat) (key : Int),
      simulate_input user key down ((List.range' s n).map ent) =
        (List.range' s n).map
          (fun (i : Nat) => if (i : Int) = key then writeUser user down (ent i)
                            else ent i) := by
  intro n
  induction n with
  | zero => intro s key; rfl
  | succ n ih =>
    intro s key
    rw [List.range'_succ, List.map_cons, List.map_cons]
    by_cases hk : (s : Int) = key
    · subst hk
      simp only [simulate_input]
      rw [if_pos (by rw [hent])]
      have htail :
          List.map
            (fun (i : Nat) =>
              if (i : Int) = (s : Int) then writeUser user down (ent i)
              else ent i)
            (List.range' (s + 1) n) =
            List.map ent (List.range' (s + 1) n) := by
        apply List.map_congr_left
        intro i hi
        obtain ⟨k, hkk, rfl⟩ := List.mem_range'.mp hi
        rw [if_neg (by omega)]
      rw [htail]
      simp
    · simp only [simulate_input]
      rw [if_neg (by rw [hent]; exact hk), if_neg hk, ih (s + 1) key]

lemma simulate_input_entWrite (user down : Int) (ent : Nat → CodeToKey)
    (hent : ∀ i, (ent i).id = (i : Int)) (n s : Nat) (key : Int) :
    simulate_input user key down ((List.range' s n).map ent) =
      (List.range' s n).map (entWrite ent user down key) :=
  (simulate_input_range' user down ent hent n s key).trans rfl

lemma getD_map_range' (ent : Nat → CodeToKey) :
    ∀ (n s j : Nat), j < n →
      ((List.range' s n).map ent).getD j ⟨0, 0, 0, 0, 0⟩ = ent (s + j) := by
  intro n
  induction n with
  | zero => intro s j h; omega
  | succ n ih =>
    intro s j h
    rw [List.range'_succ, List.map_cons]
    cases j with
    | zero => simp
    | succ j =>
      rw [List.getD_cons_succ, ih (s + 1) j (by omega)]
      congr 1
      omega

lemma stuffEntry_id (d1 d2 d3 d4 : Nat → Int) (i : Nat) :
    (stuffEntry d1 d2 d3 d4 i).id = (i : Int) := rfl

lemma is_pressed_hehe_stuffTable (d1 d2 d3 d4 : Nat → Int) (user : Int)
    (j : Nat) (hj : j < 24) :
    is_pressed_hehe (stuffTable d1 d2 d3 d4) user (j : Int) =
      colGet user (stuffEntry d1 d2 d3 d4 j) := by
  unfold is_pressed_hehe
  rw [if_neg (by omega)]
  unfold stuffTable
  rw [List.range_eq_range']
  exact is_pressed_scan_range' user _ (stuffEntry_id d1 d2 d3 d4) 29 0 j
    (by omega) (by omega)

/- ── Helper lemmas: joypad mask bitfield ─────────────────────────────── -/

lemma joypad_mask_fold (stuff : List CodeToKey) (port : Nat) :
    ∀ (l : List Nat) (acc : Nat) (j : Nat),
      Nat.testBit
        (l.foldl
          (fun (r i : Nat) =>
            if is_pressed_hehe stuff ((port : Int)) ((i : Int)) ≠ 0 then
              r ||| (1 <<< i)
            else r)
          acc) j = true ↔
      (Nat.testBit acc j = true ∨
        (j ∈ l ∧ is_pressed_hehe stuff ((port : Int)) ((j : Int)) ≠ 0)) := by
  intro l
  induction l with
  | nil => intro acc j; simp
  | cons i l ih =>
    intro acc j
    rw [List.foldl_cons]
    by_cases hp : is_pressed_hehe stuff ((port : Int)) ((i : Int)) ≠ 0
    · rw [if_pos hp, ih]
      rw [Nat.testBit_or, Nat.one_shiftLeft, Nat.testBit_two_pow]
      by_cases hji : j = i
      · subst hji
        simp [hp]
      · simp only [List.mem_cons]
        constructor
        · rintro (h | h)
          · rcases Bool.or_eq_true_iff.mp h with h1 | h1
            · exact Or.inl h1
            · exact absurd (of_decide_eq_true h1).symm hji
          · exact Or.inr ⟨Or.inr h.1, h.2⟩
        · rintro (h | ⟨hm | hm, hP⟩)
          · exact Or.inl (Bool.or_eq_true_iff.mpr (Or.inl h))
          · exact absurd hm hji
          · exact Or.inr ⟨hm, hP⟩
    · rw [if_neg hp, ih]
      simp only [List.mem_cons]
      constructor
      · rintro (h | ⟨hm, hP⟩)
        · exact Or.inl h
        · exact Or.inr ⟨Or.inr hm, hP⟩
      · rintro (h | ⟨hm | hm, hP⟩)
        · exact Or.inl h
        · subst hm; exact absurd hP hp
        · exact Or.inr ⟨hm, hP⟩

lemma joypad_mask_lt (stuff : List CodeToKey) (port : Nat) :
    rwebinput_joypad_mask stuff port < 65536 := by
  unfold rwebinput_joypad_mask
  have key : ∀ (l : List Nat) (acc : Nat), (∀ i ∈ l, i < 16) → acc < 65536 →
      l.foldl
        (fun (r i : Nat) =>
          if is_pressed_hehe stuff ((port : Int)) ((i : Int)) ≠ 0 then
            r ||| (1 <<< i)
          else r)
        acc < 65536 := by
    intro l
    induction l with
    | nil => intro acc _ hacc; exact hacc
    | cons i l ih =>
      intro acc hl hacc
      rw [List.foldl_cons]
      by_cases hp : is_pressed_hehe stuff ((port : Int)) ((i : Int)) ≠ 0
      · rw [if_pos hp]
        refine ih _ (fun x hx => hl x (by simp [hx])) ?_
        have h1 : acc < 2 ^ 16 := hacc
        have h2 : 1 <<< i < 2 ^ 16 := by
          rw [Nat.one_shiftLeft]
          exact Nat.pow_lt_pow_right (by norm_num) (hl i (by simp))
        exact Nat.or_lt_two_pow h1 h2
      · rw [if_neg hp]
        exact ih _ (fun x hx => hl x (by simp [hx])) hacc
  refine key _ 0 (fun i hi => ?_) (by norm_num)
  have := List.mem_range.mp hi
  unfold RARCH_FIRST_CUSTOM_BIND at this
  omega

/- ── Helper lemmas: int16 conversions ────────────────────────────────── -/

lemma uint16_toInt16_of_lt (m : Nat) (h : m < 65536) :
    uint16 (toInt16 (m : Int)) = (m : Int) := by
  unfold uint16 toInt16
  omega

lemma toInt16_small (v : Int) (h1 : -32768 ≤ v) (h2 : v < 32768) :
    toInt16 v = v := by
  unfold toInt16
  omega

/- ── Helper lemmas: LUT construction ─────────────────────────────────── -/

lemma lut_fold_of_nodup :
    ∀ (es : List (String × Nat)) (l0 : List (Nat × Nat)),
      (l0.map Prod.fst ++
        es.map (fun e => encoding_crc32 0 (strBytes e.1))).Nodup →
      rwebinput_lut_fold (some l0) es =
        some (l0 ++ es.map (fun e => (encoding_crc32 0 (strBytes e.1), e.2))) := by
  intro es
  induction es with
  | nil => intro l0 h; simp [rwebinput_lut_fold]
  | cons e es ih =>
    intro l0 h
    have hnodup := h
    rw [List.map_cons] at hnodup
    have hdisj := (List.nodup_append.mp hnodup).2.2
    have hnotin : encoding_crc32 0 (strBytes e.1) ∉ l0.map Prod.fst := by
      intro hmem
      exact hdisj hmem (by simp)
    have hany : l0.any (fun p => p.1 = encoding_crc32 0 (strBytes e.1)) = false := by
      rw [List.any_eq_false]
      intro p hp hcrc
      exact hnotin (by
        rw [← of_decide_eq_true hcrc]
        exact List.mem_map_of_mem Prod.fst hp)
    show rwebinput_lut_fold
      (if l0.any (fun p => p.1 = encoding_crc32 0 (strBytes e.1)) then none
       else some (l0 ++ [(encoding_crc32 0 (strBytes e.1), e.2)])) es = _
    rw [hany]
    simp only [Bool.false_eq_true, if_false]
    rw [ih (l0 ++ [(encoding_crc32 0 (strBytes e.1), e.2)]) (by
      rw [List.map_append]
      simp only [List.map_cons, List.map_nil]
      have : l0.map Prod.fst ++ [encoding_crc32 0 (strBytes e.1)] ++
          es.map (fun e => encoding_crc32 0 (strBytes e.1)) =
          l0.map Prod.fst ++ encoding_crc32 0 (strBytes e.1) ::
          es.map (fun e => encoding_crc32 0 (strBytes e.1)) := by
        simp
      rw [this]
      exact hnodup)]
    simp

set_option maxRecDepth 20000 in
lemma rwebinputCrcs_eq_literals : rwebinputCrcs = rwebinputCrcLiterals := by
  rfl

set_option maxRecDepth 10000 in
lemma rwebinputCrcs_nodup : rwebinputCrcs.Nodup := by
  rw [rwebinputCrcs_eq_literals]
  decide

/- ── Claim theorems ──────────────────────────────────────────────────── -/

/-- C1: Mouse motion deltas are double-buffered by poll.  From a freshly
initialised driver, after two mousemove events with movement_x = 3 and then
movement_x = 4 (WEB_SCALING disabled), `state(MOUSE, X)` returns 0 before any
poll; after one poll it returns 7; a repeated query with no intervening
events still returns 7 (state queries are pure reads of the snapshot); after
a second poll it returns 0.  The host parameters (bind-list end, analog
conversion, viewport translation, key map) are arbitrary. -/
theorem mouse_delta_double_buffer_C1 (bindListEnd : Nat)
    (conv : Nat → Nat → Nat × Nat)
    (vtrans : Int → Int → Option (Int × Int × Int × Int)) (lut : Nat → Nat) :
    rwebinput_input_state bindListEnd conv vtrans stuff_init c1_s2 0
        RETRO_DEVICE_MOUSE 0 RETRO_DEVICE_ID_MOUSE_X = 0 ∧
    rwebinput_input_state bindListEnd conv vtrans stuff_init (c1_s3 lut) 0
        RETRO_DEVICE_MOUSE 0 RETRO_DEVICE_ID_MOUSE_X = 7 ∧
    rwebinput_input_state bindListEnd conv vtrans stuff_init (c1_s3 lut) 0
        RETRO_DEVICE_MOUSE 0 RETRO_DEVICE_ID_MOUSE_X = 7 ∧
    rwebinput_input_state bindListEnd conv vtrans stuff_init (c1_s4 lut) 0
        RETRO_DEVICE_MOUSE 0 RETRO_DEVICE_ID_MOUSE_X = 0 :=
  ⟨rfl, rfl, rfl, rfl⟩

/-- C2: for every driver state, immediately after a call to poll the pending
mouse motion delta and the pending scroll counters are all zero. -/
theorem poll_zeroes_pending_C2 (lut : Nat → Nat) (st : RwebinputInput) :
    (rwebinput_input_poll lut st).mouse.pending_delta_x = 0 ∧
    (rwebinput_input_poll lut st).mouse.pending_delta_y = 0 ∧
    (rwebinput_input_poll lut st).mouse.pending_scroll_x = 0 ∧
    (rwebinput_input_poll lut st).mouse.pending_scroll_y = 0 :=
  ⟨rfl, rfl, rfl, rfl⟩

/-- C3: for every queued sequence of keyboard event records, after poll the
key-down table equals the net effect of applying the drained records in FIFO
order (each record whose code string translates through the CRC hash and the
host key-map service `lut` to an id in range and not UNKNOWN sets the slot
true for keydown and false for keyup; other records leave the table
unchanged), and the queue count is reset to zero. -/
theorem poll_drains_keyboard_fifo_C3 (lut : Nat → Nat) (st : RwebinputInput) :
    (rwebinput_input_poll lut st).keys =
      keyTableNetEffect lut (st.keyboard.events.take st.keyboard.count)
        st.keys ∧
    (rwebinput_input_poll lut st).keyboard.count = 0 :=
  ⟨rfl, rfl⟩

/-- C7: the 32-bit CRCs of the code strings in the static key-to-code table
are pairwise distinct, so the collision assertion in the LUT build step never
fires (the build succeeds) and the built table pairs each code string's CRC
with its retro key id, terminated by (0, UNKNOWN). -/
theorem crc_lut_collision_free_C7 :
    rwebinputCrcs.Nodup ∧
    rwebinput_generate_lut =
      some (rwebinput_key_to_code_map.map
              (fun e => (encoding_crc32 0 (strBytes e.1), e.2)) ++
            [(0, RETROK_UNKNOWN)]) := by
  refine ⟨rwebinputCrcs_nodup, ?_⟩
  unfold rwebinput_generate_lut
  rw [lut_fold_of_nodup rwebinput_key_to_code_map []
        (by exact rwebinputCrcs_nodup)]
  simp

/- ── Helper lemmas: entWrite and table reads ─────────────────────────── -/

lemma entWrite_id (ent : Nat → CodeToKey) (user down key : Int)
    (hent : ∀ i, (ent i).id = (i : Int)) :
    ∀ i, (entWrite ent user down key i).id = (i : Int) := by
  intro i
  unfold entWrite
  split_ifs
  · rw [writeUser_id, hent]
  · exact hent i

lemma is_pressed_hehe_map (ent : Nat → CodeToKey)
    (hent : ∀ i, (ent i).id = (i : Int)) (user : Int) (j : Nat) (hj : j < 24) :
    is_pressed_hehe ((List.range' 0 29).map ent) user (j : Int) =
      colGet user (ent j) := by
  unfold is_pressed_hehe
  rw [if_neg (by omega)]
  exact is_pressed_scan_range' user ent hent 29 0 j (by omega) (by omega)

lemma cellAt_map (ent : Nat → CodeToKey) (u : Int) (j : Nat) (hj : j < 29) :
    cellAt ((List.range' 0 29).map ent) u j = colGet u (ent j) := by
  unfold cellAt
  rw [getD_map_range' ent 29 0 j hj]
  norm_num

lemma writeUser_bad_user (user down : Int) (e : CodeToKey)
    (h : user < 0 ∨ 3 < user) : writeUser user down e = e := by
  unfold writeUser
  split_ifs <;> first | rfl | omega

lemma is_pressed_bool (d1 d2 d3 d4 : Nat → Int)
    (hb : ∀ j : Nat, (d1 j = 0 ∨ d1 j = 1) ∧ (d2 j = 0 ∨ d2 j = 1) ∧
          (d3 j = 0 ∨ d3 j = 1) ∧ (d4 j = 0 ∨ d4 j = 1))
    (user i : Int) :
    is_pressed_hehe (stuffTable d1 d2 d3 d4) user i = 0 ∨
      is_pressed_hehe (stuffTable d1 d2 d3 d4) user i = 1 := by
  unfold is_pressed_hehe
  by_cases h24 : 24 ≤ i
  · rw [if_pos h24]
    exact Or.inl rfl
  · rw [if_neg h24]
    by_cases h0 : 0 ≤ i
    · obtain ⟨j, rfl⟩ : ∃ j : Nat, (j : Int) = i :=
        ⟨i.toNat, Int.toNat_of_nonneg h0⟩
      unfold stuffTable
      rw [List.range_eq_range',
        is_pressed_scan_range' user _ (stuffEntry_id d1 d2 d3 d4) 29 0 j
          (by omega) (by omega)]
      rcases hb j with ⟨b1, b2, b3, b4⟩
      unfold colGet stuffEntry
      split_ifs <;> tauto
    · refine Or.inl ?_
      unfold stuffTable
      rw [List.range_eq_range']
      apply scan_nomatch
      intro e he
      obtain ⟨k, hk, rfl⟩ := List.mem_map.mp he
      rw [stuffEntry_id]
      omega

/-- C4: for every user in 0..3 and id in 0..23 (over any state of the
gamepad table's down columns), simulate_input(user, id, 1) followed by
is_pressed(user, id) returns 1; a subsequent simulate_input(user, id, 0)
followed by another read returns 0; and in both cases the stored down flags
of every other (user', id') pair are unchanged. -/
theorem gamepad_sim_read_roundtrip_C4 (d1 d2 d3 d4 : Nat → Int)
    (user id : Int) (hu0 : 0 ≤ user) (hu4 : user < 4) (hi0 : 0 ≤ id)
    (hi24 : id < 24) :
    is_pressed_hehe (simulate_input user id 1 (stuffTable d1 d2 d3 d4))
        user id = 1 ∧
    is_pressed_hehe (simulate_input user id 0
        (simulate_input user id 1 (stuffTable d1 d2 d3 d4))) user id = 0 ∧
    (∀ (u : Int) (j : Nat), j < 29 → ¬(u = user ∧ (j : Int) = id) →
      cellAt (simulate_input user id 1 (stuffTable d1 d2 d3 d4)) u j =
        cellAt (stuffTable d1 d2 d3 d4) u j ∧
      cellAt (simulate_input user id 0
          (simulate_input user id 1 (stuffTable d1 d2 d3 d4))) u j =
        cellAt (stuffTable d1 d2 d3 d4) u j) := by
  obtain ⟨j0, rfl⟩ : ∃ j : Nat, (j : Int) = id :=
    ⟨id.toNat, Int.toNat_of_nonneg hi0⟩
  have hj024 : j0 < 24 := by omega
  have hent := stuffEntry_id d1 d2 d3 d4
  have ht : stuffTable d1 d2 d3 d4 =
      (List.range' 0 29).map (stuffEntry d1 d2 d3 d4) := by
    unfold stuffTable
    rw [List.range_eq_range']
  have hW1 := entWrite_id (stuffEntry d1 d2 d3 d4) user 1 (j0 : Int) hent
  have hW2 := entWrite_id _ user 0 (j0 : Int) hW1
  have h1 : simulate_input user (j0 : Int) 1 (stuffTable d1 d2 d3 d4) =
      (List.range' 0 29).map
        (entWrite (stuffEntry d1 d2 d3 d4) user 1 (j0 : Int)) := by
    rw [ht]
    exact simulate_input_entWrite user 1 _ hent 29 0 _
  have h2 : simulate_input user (j0 : Int) 0
        (simulate_input user (j0 : Int) 1 (stuffTable d1 d2 d3 d4)) =
      (List.range' 0 29).map
        (entWrite (entWrite (stuffEntry d1 d2 d3 d4) user 1 (j0 : Int))
          user 0 (j0 : Int)) := by
    rw [h1]
    exact simulate_input_entWrite user 0 _ hW1 29 0 _
  refine ⟨?_, ?_, ?_⟩
  · rw [h1, is_pressed_hehe_map _ hW1 user j0 hj024]
    unfold entWrite
    rw [if_pos rfl]
    exact colGet_writeUser_same user 1 _ hu0 hu4
  · rw [h2, is_pressed_hehe_map _ hW2 user j0 hj024]
    unfold entWrite
    rw [if_pos rfl, if_pos rfl]
    exact colGet_writeUser_same user 0 _ hu0 hu4
  · intro u j hj hne
    refine ⟨?_, ?_⟩
    · rw [h1, cellAt_map _ u j hj, ht, cellAt_map _ u j hj]
      unfold entWrite
      by_cases hjid : (j : Int) = (j0 : Int)
      · have hu : u ≠ user := fun h => hne ⟨h, hjid⟩
        rw [if_pos hjid]
        exact colGet_writeUser_other u user 1 _ hu
      · rw [if_neg hjid]
    · rw [h2, cellAt_map _ u j hj, ht, cellAt_map _ u j hj]
      unfold entWrite
      by_cases hjid : (j : Int) = (j0 : Int)
      · have hu : u ≠ user := fun h => hne ⟨h, hjid⟩
        rw [if_pos hjid, if_pos hjid]
        rw [colGet_writeUser_other u user 0 _ hu,
            colGet_writeUser_other u user 1 _ hu]
      · rw [if_neg hjid, if_neg hjid]

/-- Witness for C4 at user 0, id 4, from the all-zero table. -/
theorem gamepad_sim_read_roundtrip_C4_witness :
    (0 : Int) ≤ 0 ∧ (0 : Int) < 4 ∧ (0 : Int) ≤ 4 ∧ (4 : Int) < 24 ∧
    (is_pressed_hehe (simulate_input 0 4 1 stuff_init) 0 4 = 1 ∧
     is_pressed_hehe (simulate_input 0 4 0 (simulate_input 0 4 1 stuff_init))
        0 4 = 0 ∧
     (∀ (u : Int) (j : Nat), j < 29 → ¬(u = 0 ∧ (j : Int) = 4) →
       cellAt (simulate_input 0 4 1 stuff_init) u j = cellAt stuff_init u j ∧
       cellAt (simulate_input 0 4 0 (simulate_input 0 4 1 stuff_init)) u j =
         cellAt stuff_init u j)) :=
  ⟨by norm_num, by norm_num, by norm_num, by norm_num,
   gamepad_sim_read_roundtrip_C4 (fun _ => 0) (fun _ => 0) (fun _ => 0)
     (fun _ => 0) 0 4 (by norm_num) (by norm_num) (by norm_num)
     (by norm_num)⟩

/-- C10 (implicit): for every user outside 0..3 and every id,
is_pressed_hehe(user, id) returns 0, and simulate_input(user, id, down)
leaves every cell of the gamepad table unchanged. -/
theorem gamepad_bad_user_noop_C10 (d1 d2 d3 d4 : Nat → Int)
    (user id down : Int) (hu : user < 0 ∨ 3 < user) :
    is_pressed_hehe (stuffTable d1 d2 d3 d4) user id = 0 ∧
    simulate_input user id down (stuffTable d1 d2 d3 d4) =
      stuffTable d1 d2 d3 d4 := by
  constructor
  · unfold is_pressed_hehe
    by_cases h24 : 24 ≤ id
    · rw [if_pos h24]
    · rw [if_neg h24]
      by_cases h0 : 0 ≤ id
      · obtain ⟨j, rfl⟩ : ∃ j : Nat, (j : Int) = id :=
          ⟨id.toNat, Int.toNat_of_nonneg h0⟩
        unfold stuffTable
        rw [List.range_eq_range',
          is_pressed_scan_range' user _ (stuffEntry_id d1 d2 d3 d4) 29 0 j
            (by omega) (by omega)]
        exact colGet_of_bad_user user _ hu
      · unfold stuffTable
        rw [List.range_eq_range']
        apply scan_nomatch
        intro e he
        obtain ⟨k, hk, rfl⟩ := List.mem_map.mp he
        rw [stuffEntry_id]
        omega
  · unfold stuffTable
    rw [List.range_eq_range',
      simulate_input_entWrite user down _ (stuffEntry_id d1 d2 d3 d4) 29 0 id]
    apply List.map_congr_left
    intro i hi
    unfold entWrite
    by_cases h : (i : Int) = id
    · rw [if_pos h]
      exact writeUser_bad_user user down _ hu
    · rw [if_neg h]

/-- Witness for C10 at user 4 (outside 0..3), id 0, down 1, all-zero table. -/
theorem gamepad_bad_user_noop_C10_witness :
    ((4 : Int) < 0 ∨ (3 : Int) < 4) ∧
    (is_pressed_hehe stuff_init 4 0 = 0 ∧
     simulate_input 4 0 1 stuff_init = stuff_init) :=
  ⟨Or.inr (by norm_num),
   gamepad_bad_user_noop_C10 (fun _ => 0) (fun _ => 0) (fun _ => 0)
     (fun _ => 0) 4 0 1 (Or.inr (by norm_num))⟩

lemma toNat_of_natCast (m : Nat) : ((m : Int)).toNat = m := rfl

/-- C5: for every port and every gamepad-table state, state(port, JOYPAD,
MASK) returns a bitfield whose bit i is set iff is_pressed(port, i) for
i = 0..RARCH_FIRST_CUSTOM_BIND−1, and for every id < bindListEnd (the host
constant RARCH_BIND_LIST_END, which the host headers keep at most 256 so it
cannot collide with the MASK id), state(port, JOYPAD, id) returns 1 iff
is_pressed(port, id) is nonzero and 0 otherwise. -/
theorem joypad_state_matches_is_pressed_C5 (d1 d2 d3 d4 : Nat → Int)
    (port bindListEnd idx : Nat) (conv : Nat → Nat → Nat × Nat)
    (vtrans : Int → Int → Option (Int × Int × Int × Int))
    (st : RwebinputInput) (hble : bindListEnd ≤ 256) :
    (∀ i : Nat, i < 16 →
      (Nat.testBit
          (uint16 (rwebinput_input_state bindListEnd conv vtrans
            (stuffTable d1 d2 d3 d4) st port RETRO_DEVICE_JOYPAD idx
            RETRO_DEVICE_ID_JOYPAD_MASK)).toNat i = true ↔
        is_pressed_hehe (stuffTable d1 d2 d3 d4) (port : Int) (i : Int)
          ≠ 0)) ∧
    (∀ id : Nat, id < bindListEnd →
      rwebinput_input_state bindListEnd conv vtrans (stuffTable d1 d2 d3 d4)
          st port RETRO_DEVICE_JOYPAD idx id =
        if is_pressed_hehe (stuffTable d1 d2 d3 d4) (port : Int) (id : Int)
            ≠ 0 then 1 else 0) := by
  constructor
  · intro i hi
    have hv : rwebinput_input_state bindListEnd conv vtrans
        (stuffTable d1 d2 d3 d4) st port RETRO_DEVICE_JOYPAD idx
        RETRO_DEVICE_ID_JOYPAD_MASK =
        toInt16 ((rwebinput_joypad_mask (stuffTable d1 d2 d3 d4) port :
          Nat) : Int) := rfl
    rw [hv,
      uint16_toInt16_of_lt (rwebinput_joypad_mask (stuffTable d1 d2 d3 d4)
        port) (joypad_mask_lt (stuffTable d1 d2 d3 d4) port),
      toNat_of_natCast]
    unfold rwebinput_joypad_mask
    rw [joypad_mask_fold (stuffTable d1 d2 d3 d4) port
      (List.range RARCH_FIRST_CUSTOM_BIND) 0 i]
    constructor
    · rintro (hfalse | ⟨_, hP⟩)
      · rw [Nat.zero_testBit] at hfalse
        exact absurd hfalse (by simp)
      · exact hP
    · intro hP
      exact Or.inr ⟨List.mem_range.mpr hi, hP⟩
  · intro id hid
    have hv : rwebinput_input_state bindListEnd conv vtrans
        (stuffTable d1 d2 d3 d4) st port RETRO_DEVICE_JOYPAD idx id =
        if id = RETRO_DEVICE_ID_JOYPAD_MASK then
          toInt16 ((rwebinput_joypad_mask (stuffTable d1 d2 d3 d4) port :
            Nat) : Int)
        else if id < bindListEnd ∧
            is_pressed_hehe (stuffTable d1 d2 d3 d4) (port : Int) (id : Int)
              ≠ 0 then 1
        else 0 := rfl
    rw [hv, if_neg (by unfold RETRO_DEVICE_ID_JOYPAD_MASK; omega)]
    by_cases hp :
      is_pressed_hehe (stuffTable d1 d2 d3 d4) (port : Int) (id : Int) ≠ 0
    · rw [if_pos ⟨hid, hp⟩, if_pos hp]
    · rw [if_neg (fun hc => hp hc.2), if_neg hp]

/-- Witness for C5 at port 0, bind-list end 58, all-zero table. -/
theorem joypad_state_matches_is_pressed_C5_witness :
    (58 : Nat) ≤ 256 ∧
    ((∀ i : Nat, i < 16 →
      (Nat.testBit
          (uint16 (rwebinput_input_state 58 (fun _ _ => (0, 0))
            (fun _ _ => none) stuff_init rwebinput_init 0 RETRO_DEVICE_JOYPAD
            0 RETRO_DEVICE_ID_JOYPAD_MASK)).toNat i = true ↔
        is_pressed_hehe stuff_init ((0 : Nat) : Int) (i : Int) ≠ 0)) ∧
    (∀ id : Nat, id < 58 →
      rwebinput_input_state 58 (fun _ _ => (0, 0)) (fun _ _ => none)
          stuff_init rwebinput_init 0 RETRO_DEVICE_JOYPAD 0 id =
        if is_pressed_hehe stuff_init ((0 : Nat) : Int) (id : Int) ≠ 0
        then 1 else 0)) :=
  ⟨by norm_num,
   joypad_state_matches_is_pressed_C5 (fun _ => 0) (fun _ => 0) (fun _ => 0)
     (fun _ => 0) 0 58 0 (fun _ _ => (0, 0)) (fun _ _ => none)
     rwebinput_init (by norm_num)⟩

/-- C6: for every port, index and id, state(port, ANALOG, index, id) equals
is_pressed(port, id_plus) − is_pressed(port, id_minus), where (id_minus,
id_plus) is the pair produced by the host service
input_conv_analog_id_to_bind_id for (index, id), and the result is in
{−1, 0, +1}.  The gamepad table's cells are 0/1-valued, as produced by the
spec's injection interface (down ∈ {0, 1}). -/
theorem analog_state_difference_C6 (d1 d2 d3 d4 : Nat → Int)
    (port bindListEnd idx id : Nat) (conv : Nat → Nat → Nat × Nat)
    (vtrans : Int → Int → Option (Int × Int × Int × Int))
    (st : RwebinputInput)
    (hb : ∀ j : Nat, (d1 j = 0 ∨ d1 j = 1) ∧ (d2 j = 0 ∨ d2 j = 1) ∧
          (d3 j = 0 ∨ d3 j = 1) ∧ (d4 j = 0 ∨ d4 j = 1)) :
    rwebinput_input_state bindListEnd conv vtrans (stuffTable d1 d2 d3 d4) st
        port RETRO_DEVICE_ANALOG idx id =
      is_pressed_hehe (stuffTable d1 d2 d3 d4) (port : Int)
          (((conv idx id).2 : Nat) : Int) -
        is_pressed_hehe (stuffTable d1 d2 d3 d4) (port : Int)
          (((conv idx id).1 : Nat) : Int) ∧
    (rwebinput_input_state bindListEnd conv vtrans (stuffTable d1 d2 d3 d4)
        st port RETRO_DEVICE_ANALOG idx id = -1 ∨
     rwebinput_input_state bindListEnd conv vtrans (stuffTable d1 d2 d3 d4)
        st port RETRO_DEVICE_ANALOG idx id = 0 ∨
     rwebinput_input_state bindListEnd conv vtrans (stuffTable d1 d2 d3 d4)
        st port RETRO_DEVICE_ANALOG idx id = 1) := by
  have hv : rwebinput_input_state bindListEnd conv vtrans
      (stuffTable d1 d2 d3 d4) st port RETRO_DEVICE_ANALOG idx id =
      (let rv1 := is_pressed_hehe (stuffTable d1 d2 d3 d4) (port : Int)
        (((conv idx id).2 : Nat) : Int)
       let ret1 : Int := if rv1 ≠ 0 then toInt16 rv1 else 0
       let rv2 := is_pressed_hehe (stuffTable d1 d2 d3 d4) (port : Int)
        (((conv idx id).1 : Nat) : Int)
       if rv2 ≠ 0 then toInt16 (ret1 - rv2) else ret1) := rfl
  rcases is_pressed_bool d1 d2 d3 d4 hb (port : Int)
      (((conv idx id).2 : Nat) : Int) with hp | hp <;>
    rcases is_pressed_bool d1 d2 d3 d4 hb (port : Int)
        (((conv idx id).1 : Nat) : Int) with hm | hm <;>
    rw [hv, hp, hm] <;> decide

/-- Witness for C6 at port 1, with the host conversion returning the pair
(id_minus, id_plus) = (17, 16), over the all-zero table. -/
theorem analog_state_difference_C6_witness :
    (∀ j : Nat,
      ((fun _ : Nat => (0 : Int)) j = 0 ∨ (fun _ : Nat => (0 : Int)) j = 1) ∧
      ((fun _ : Nat => (0 : Int)) j = 0 ∨ (fun _ : Nat => (0 : Int)) j = 1) ∧
      ((fun _ : Nat => (0 : Int)) j = 0 ∨ (fun _ : Nat => (0 : Int)) j = 1) ∧
      ((fun _ : Nat => (0 : Int)) j = 0 ∨
        (fun _ : Nat => (0 : Int)) j = 1)) ∧
    (rwebinput_input_state 58 (fun _ _ => (17, 16)) (fun _ _ => none)
        stuff_init rwebinput_init 1 RETRO_DEVICE_ANALOG 0 0 =
      is_pressed_hehe stuff_init ((1 : Nat) : Int)
          ((((fun _ _ => ((17 : Nat), (16 : Nat))) 0 0).2 : Nat) : Int) -
        is_pressed_hehe stuff_init ((1 : Nat) : Int)
          ((((fun _ _ => ((17 : Nat), (16 : Nat))) 0 0).1 : Nat) : Int) ∧
     (rwebinput_input_state 58 (fun _ _ => (17, 16)) (fun _ _ => none)
        stuff_init rwebinput_init 1 RETRO_DEVICE_ANALOG 0 0 = -1 ∨
      rwebinput_input_state 58 (fun _ _ => (17, 16)) (fun _ _ => none)
        stuff_init rwebinput_init 1 RETRO_DEVICE_ANALOG 0 0 = 0 ∨
      rwebinput_input_state 58 (fun _ _ => (17, 16)) (fun _ _ => none)
        stuff_init rwebinput_init 1 RETRO_DEVICE_ANALOG 0 0 = 1)) :=
  ⟨fun _ => ⟨Or.inl rfl, Or.inl rfl, Or.inl rfl, Or.inl rfl⟩,
   analog_state_difference_C6 (fun _ => 0) (fun _ => 0) (fun _ => 0)
     (fun _ => 0) 1 58 0 0 (fun _ _ => (17, 16)) (fun _ _ => none)
     rwebinput_init
     (fun _ => ⟨Or.inl rfl, Or.inl rfl, Or.inl rfl, Or.inl rfl⟩)⟩

/-- C8: tap-drag cancellation.  From a fresh driver, a touchstart of finger
1 at (100, 100) followed by a touchmove of the same finger to (200, 200)
moves the L1 position fingerprint by |200 − 400| = 200 > 25, so the tap is
invalidated (last_touchdown_id becomes −1), and the subsequent touchend
synthesises no click: mouse button bit 0 stays 0 after every one of the
three events. -/
theorem touch_drag_cancels_tap_C8 :
    c8_s2.touch.last_touchdown_id = -1 ∧
    c8_s1.mouse.buttons % 2 = 0 ∧
    c8_s2.mouse.buttons % 2 = 0 ∧
    c8_s3.mouse.buttons % 2 = 0 := by
  decide

/-- C9 counterexample: the claim "every touch event for a non-tracked finger
while a finger is tracked leaves the entire driver state unchanged" is false:
with finger 1 tracked (state c9_state), a touchstart of finger 2 rewrites
last_touchdown_id from 1 to 2. -/
theorem touch_nontracked_ignored_C9_counterexample :
    (rwebinput_touch_cb EMSCRIPTEN_EVENT_TOUCHSTART [⟨2, 5, 5, true⟩]
        c9_state).touch.last_touchdown_id ≠
      c9_state.touch.last_touchdown_id := by
  decide

/-- C9 (amended): while a finger is tracked (down = true), a touch event
whose selected changed point has a different identifier never affects the
tracked-finger motion state (down, touch_id, last canvas position), the
mouse position, motion deltas and scroll state, the keyboard queue or the
key table; only the tap-sequence fields (clicked_yet, last_touchdown_id,
last_touchdown_location) and the synthesised left-button bit may change. -/
theorem touch_nontracked_motion_unchanged_C9 (event_type : Nat)
    (touches : List TouchPoint) (st : RwebinputInput) (ct : TouchPoint)
    (hsel : selectChanged touches = some ct)
    (hdown : st.touch.down = true)
    (hid : ct.identifier ≠ st.touch.touch_id) :
    (rwebinput_touch_cb event_type touches st).touch.down = st.touch.down ∧
    (rwebinput_touch_cb event_type touches st).touch.touch_id = st.touch.touch_id ∧
    (rwebinput_touch_cb event_type touches st).touch.last_canvasX = st.touch.last_canvasX ∧
    (rwebinput_touch_cb event_type touches st).touch.last_canvasY = st.touch.last_canvasY ∧
    (rwebinput_touch_cb event_type touches st).mouse.x = st.mouse.x ∧
    (rwebinput_touch_cb event_type touches st).mouse.y = st.mouse.y ∧
    (rwebinput_touch_cb event_type touches st).mouse.pending_delta_x = st.mouse.pending_delta_x ∧
    (rwebinput_touch_cb event_type touches st).mouse.pending_delta_y = st.mouse.pending_delta_y ∧
    (rwebinput_touch_cb event_type touches st).mouse.delta_x = st.mouse.delta_x ∧
    (rwebinput_touch_cb event_type touches st).mouse.delta_y = st.mouse.delta_y ∧
    (rwebinput_touch_cb event_type touches st).mouse.pending_scroll_x = st.mouse.pending_scroll_x ∧
    (rwebinput_touch_cb event_type touches st).mouse.pending_scroll_y = st.mouse.pending_scroll_y ∧
    (rwebinput_touch_cb event_type touches st).mouse.scroll_x = st.mouse.scroll_x ∧
    (rwebinput_touch_cb event_type touches st).mouse.scroll_y = st.mouse.scroll_y ∧
    (rwebinput_touch_cb event_type touches st).keyboard = st.keyboard ∧
    (rwebinput_touch_cb event_type touches st).keys = st.keys := by
  have hcb : rwebinput_touch_cb event_type touches st =
      rwebinput_touch_body event_type ct st := by
    unfold rwebinput_touch_cb
    rw [hsel]
  rw [hcb]
  clear hcb
  unfold rwebinput_touch_body
  dsimp only
  simp only [apply_ite RwebinputInput.touch, apply_ite RwebinputInput.mouse,
    apply_ite RwebinputInput.keyboard, apply_ite RwebinputInput.keys,
    apply_ite RwebinputTouch.down, apply_ite RwebinputTouch.touch_id,
    apply_ite RwebinputTouch.last_canvasX,
    apply_ite RwebinputTouch.last_canvasY,
    apply_ite RwebinputMouseState.x, apply_ite RwebinputMouseState.y,
    apply_ite RwebinputMouseState.pending_delta_x,
    apply_ite RwebinputMouseState.pending_delta_y,
    apply_ite RwebinputMouseState.delta_x,
    apply_ite RwebinputMouseState.delta_y,
    apply_ite RwebinputMouseState.pending_scroll_x,
    apply_ite RwebinputMouseState.pending_scroll_y,
    apply_ite RwebinputMouseState.scroll_x,
    apply_ite RwebinputMouseState.scroll_y]
  simp [hid, hdown]

/-- Witness for the amended C9: finger 1 tracked, touchstart of finger 2. -/
theorem touch_nontracked_motion_unchanged_C9_witness :
    selectChanged [⟨2, 5, 5, true⟩] = some ⟨2, 5, 5, true⟩ ∧
    c9_state.touch.down = true ∧
    (⟨2, 5, 5, true⟩ : TouchPoint).identifier ≠ c9_state.touch.touch_id ∧
    ((rwebinput_touch_cb EMSCRIPTEN_EVENT_TOUCHSTART [⟨2, 5, 5, true⟩] c9_state).touch.down = c9_state.touch.down ∧
     (rwebinput_touch_cb EMSCRIPTEN_EVENT_TOUCHSTART [⟨2, 5, 5, true⟩] c9_state).touch.touch_id = c9_state.touch.touch_id ∧
     (rwebinput_touch_cb EMSCRIPTEN_EVENT_TOUCHSTART [⟨2, 5, 5, true⟩] c9_state).touch.last_canvasX = c9_state.touch.last_canvasX ∧
     (rwebinput_touch_cb EMSCRIPTEN_EVENT_TOUCHSTART [⟨2, 5, 5, true⟩] c9_state).touch.last_canvasY = c9_state.touch.last_canvasY ∧
     (rwebinput_touch_cb EMSCRIPTEN_EVENT_TOUCHSTART [⟨2, 5, 5, true⟩] c9_state).mouse.x = c9_state.mouse.x ∧
     (rwebinput_touch_cb EMSCRIPTEN_EVENT_TOUCHSTART [⟨2, 5, 5, true⟩] c9_state).mouse.y = c9_state.mouse.y ∧
     (rwebinput_touch_cb EMSCRIPTEN_EVENT_TOUCHSTART [⟨2, 5, 5, true⟩] c9_state).mouse.pending_delta_x = c9_state.mouse.pending_delta_x ∧
     (rwebinput_touch_cb EMSCRIPTEN_EVENT_TOUCHSTART [⟨2, 5, 5, true⟩] c9_state).mouse.pending_delta_y = c9_state.mouse.pending_delta_y ∧
     (rwebinput_touch_cb EMSCRIPTEN_EVENT_TOUCHSTART [⟨2, 5, 5, true⟩] c9_state).mouse.delta_x = c9_state.mouse.delta_x ∧
     (rwebinput_touch_cb EMSCRIPTEN_EVENT_TOUCHSTART [⟨2, 5, 5, true⟩] c9_state).mouse.delta_y = c9_state.mouse.delta_y ∧
     (rwebinput_touch_cb EMSCRIPTEN_EVENT_TOUCHSTART [⟨2, 5, 5, true⟩] c9_state).mouse.pending_scroll_x = c9_state.mouse.pending_scroll_x ∧
     (rwebinput_touch_cb EMSCRIPTEN_EVENT_TOUCHSTART [⟨2, 5, 5, true⟩] c9_state).mouse.pending_scroll_y = c9_state.mouse.pending_scroll_y ∧
     (rwebinput_touch_cb EMSCRIPTEN_EVENT_TOUCHSTART [⟨2, 5, 5, true⟩] c9_state).mouse.scroll_x = c9_state.mouse.scroll_x ∧
     (rwebinput_touch_cb EMSCRIPTEN_EVENT_TOUCHSTART [⟨2, 5, 5, true⟩] c9_state).mouse.scroll_y = c9_state.mouse.scroll_y ∧
     (rwebinput_touch_cb EMSCRIPTEN_EVENT_TOUCHSTART [⟨2, 5, 5, true⟩] c9_state).keyboard = c9_state.keyboard ∧
     (rwebinput_touch_cb EMSCRIPTEN_EVENT_TOUCHSTART [⟨2, 5, 5, true⟩] c9_state).keys = c9_state.keys) :=
  ⟨by decide, by decide, by decide,
   touch_nontracked_motion_unchanged_C9 EMSCRIPTEN_EVENT_TOUCHSTART
     [⟨2, 5, 5, true⟩] c9_state ⟨2, 5, 5, true⟩ (by decide) (by decide)
     (by decide)⟩
